import Mathlib

/-!
Shallow embedding of the rate-limited request layer of `cfctl.py`
(classes `Account`, `APIError`, `Counter`).

Modelling conventions:
* Timestamps are `Int` (exact arithmetic, mirroring `datetime`
  subtraction, in seconds).  `datetime.now()` becomes an explicit
  time argument supplied to each operation.
* The provider's JSON envelope (`success` / `result` / `errors` /
  `result_info`) is modelled by the structure `Envelope`, with the
  `result` payload as a type parameter.
* Python exceptions are modelled by the `PyExn` error channel of
  `Except`.  A caught exception is not an `Except.error`: it is a
  normal return of the handler's value.
* `time.sleep` becomes the returned delay value; a blocked call
  "returns" at `now + delay`.
-/

/-- Python exceptions that the request layer can produce:
`APIError(code, mesg)` from `cfctl.py`, plus the builtin exceptions
that its code paths can raise (`TypeError` from subscripting or
unpacking `None`, `ValueError` from unpacking a 1-element container,
`IndexError` from `errors[0]` on an empty list, `AttributeError`
from reading an unbound attribute). -/
inductive PyExn where
  | typeError
  | valueError
  | indexError
  | attributeError
  | apiError (code : Int) (mesg : String)
  deriving DecidableEq, Repr

/-- The `result_info` pagination block of the envelope: the fields
`page` and `total_pages` read by `Account.get`. -/
structure Info where
  page : Nat
  total_pages : Nat
  deriving DecidableEq, Repr

/-- The provider's JSON response envelope, with payload type `α`:
`success`, `result`, `errors` (list of code/message pairs) and the
optional `result_info` block. -/
structure Envelope (α : Type) where
  success : Bool
  result : α
  errors : List (Int × String)
  result_info : Option Info
  deriving DecidableEq, Repr

/-- The dictionary built by `Account.ans_check` on success:
`{"content": r["result"]}` plus `res["info"] = r["result_info"]`
when present.  `info = none` models the `"info"` key being absent. -/
structure CheckRes (α : Type) where
  content : α
  info : Option Info
  deriving DecidableEq, Repr

/-- The string printed for an `APIError`: `APIError.__str__` formats
`"The API endpoint returned: %d, %s" % (code, mesg)`. -/
def apiErrStr (code : Int) (mesg : String) : String :=
  "The API endpoint returned: " ++ toString code ++ ", " ++ mesg

/-- The body of the `try:` block of `Account.ans_check`: if the
`success` flag is false, raise `APIError` built from the first
element of `errors` (an empty `errors` list would raise
`IndexError` instead); otherwise return the content dictionary. -/
def ans_check_try (env : Envelope α) : Except PyExn (CheckRes α) :=
  match env.success with
  | false =>
    match env.errors with
    | [] => .error .indexError
    | (c, m) :: _ => .error (.apiError c m)
  | true => .ok { content := env.result, info := env.result_info }

/-- `Account.ans_check`: runs the `try:` body and catches exactly
`APIError`, printing it (`print(err)`, collected in the returned
string list) and returning Python's implicit `None` (modelled as
`none`).  Any other exception propagates. -/
def ans_check (env : Envelope α) :
    Except PyExn (Option (CheckRes α) × List String) :=
  match ans_check_try env with
  | .ok r => .ok (some r, [])
  | .error (.apiError c m) => .ok (none, [apiErrStr c m])
  | .error e => .error e

/-- The rate limiter `Counter`: `period` and `maxhits` copied from
the account, `hist` the list of recorded timestamps (oldest first;
Python appends at the end). -/
structure Counter where
  period : Int
  maxhits : Nat
  hist : List Int
  deriving DecidableEq, Repr

/-- Last element of a timestamp list, default 0: models Python's
`hist[-1]` (only evaluated on non-empty lists in the source). -/
def lastD (l : List Int) : Int :=
  l.getLastD 0

/-- The front-pruning loop of `Counter.inc`:
`while hist[-1] - hist[0] > d: hist.remove(hist[0])`.
(`list.remove(hist[0])` deletes the first occurrence of that value,
which is index 0 itself.) -/
def pruneFront (d : Int) : List Int → List Int
  | [] => []
  | x :: rest =>
    if d < lastD (x :: rest) - x then pruneFront d rest else x :: rest

/-- `Counter.inc` at time `now` (`datetime.now()`): append `now`,
prune from the front while the span exceeds `period`, and if the
retained count is at least `maxhits`, sleep
`delay = period - (hist[-1] - hist[0])`.  Returns the new counter
state and the slept delay (0 when no sleep happens). -/
def Counter.inc (c : Counter) (now : Int) : Counter × Int :=
  (⟨c.period, c.maxhits, pruneFront c.period (c.hist ++ [now])⟩,
   if c.maxhits ≤ (pruneFront c.period (c.hist ++ [now])).length then
     c.period -
       (lastD (pruneFront c.period (c.hist ++ [now])) -
         (pruneFront c.period (c.hist ++ [now])).headD 0)
   else 0)

/-- Back-to-back driver for `Counter.inc`: each call starts at the
instant the previous one returned (its start time plus the delay it
slept).  Returns the final counter state and the final clock. -/
def runBB : Counter → Int → Nat → Counter × Int
  | c, t, 0 => (c, t)
  | c, t, n + 1 =>
    let r := c.inc t
    runBB r.1 (t + r.2) n

/-- Number of recorded timestamps inside the closed interval
`[lo, lo + w]` (a sliding window of length `w` seconds). -/
def countInWindow (w lo : Int) (l : List Int) : Nat :=
  l.countP (fun t => decide (lo ≤ t ∧ t ≤ lo + w))

/-- The `Account` state relevant to the request layer: the rate
limiter attribute.  `counter = none` models the attribute never
being bound (constructor called with `count=False`); reading it
then raises `AttributeError`. -/
structure Account where
  maxhits : Nat
  period : Int
  counter : Option Counter
  deriving DecidableEq, Repr

/-- `Account.__init__`: `maxhits = int(1200.0 / nb_wkr)`,
`period = 300`, and a `Counter` bound only when `count` is true.
(The `store` branch and the credential headers are irrelevant to
the request layer and omitted.) -/
def Account.init (count : Bool) (nb_wkr : Nat) : Account :=
  { maxhits := 1200 / nb_wkr
    period := 300
    counter :=
      if count then some ⟨300, 1200 / nb_wkr, []⟩ else none }

/-- Page-parameter update of `Account.get`: `p["page"] += 1` when
the key is present, else `p["page"] = 2`. -/
def nextPage : Option Nat → Nat
  | some n => n + 1
  | none => 2

/-- The page the server actually serves for a request whose `page`
query parameter is `p`: an absent parameter means page 1. -/
def reqPage (p : Option Nat) : Nat :=
  p.getD 1

/-- Result of one (recursive) `Account.get` call: the returned
value or the escaping exception (`res`), the final value of the
`page` entry of the shared query-parameter dictionary (`pFinal`),
the `page` parameters of the physical HTTP requests issued
(`reqs`), and the final rate-limiter state (`cntFinal`). -/
structure GetOut (β : Type) where
  res : Except PyExn (List β)
  pFinal : Option Nat
  reqs : List (Option Nat)
  cntFinal : Option Counter

/-- `Account.get`: guard on `self.counter` (an unbound attribute
raises `AttributeError` before any request), `counter.inc()`, issue
the GET (`provider p`), unwrap with `ans_check`; a swallowed
`APIError` leaves `res = None`, so `res["content"]` raises
`TypeError`.  When pagination metadata says `page < total_pages`,
mutate the shared parameter dictionary with `nextPage` and recurse,
appending the follow-up's content.  `fuel` bounds the recursion
depth of the model (the source recursion is bounded only by the
provider's `total_pages`); `nows k` is the clock at the `k`-th
request. -/
def accountGetAux (nows : Nat → Int) (provider : Option Nat → Envelope (List β)) :
    Nat → Option Counter → Nat → Option Nat → GetOut β
  | _, none, _, p => ⟨.error .attributeError, p, [], none⟩
  | 0, some c, k, p =>
    match ans_check (provider p) with
    | .error e => ⟨.error e, p, [p], some (c.inc (nows k)).1⟩
    | .ok (none, _) => ⟨.error .typeError, p, [p], some (c.inc (nows k)).1⟩
    | .ok (some r, _) =>
      match r.info with
      | none => ⟨.ok r.content, p, [p], some (c.inc (nows k)).1⟩
      | some i =>
        if i.page < i.total_pages then
          ⟨.ok r.content, some (nextPage p), [p], some (c.inc (nows k)).1⟩
        else ⟨.ok r.content, p, [p], some (c.inc (nows k)).1⟩
  | f + 1, some c, k, p =>
    match ans_check (provider p) with
    | .error e => ⟨.error e, p, [p], some (c.inc (nows k)).1⟩
    | .ok (none, _) => ⟨.error .typeError, p, [p], some (c.inc (nows k)).1⟩
    | .ok (some r, _) =>
      match r.info with
      | none => ⟨.ok r.content, p, [p], some (c.inc (nows k)).1⟩
      | some i =>
        if i.page < i.total_pages then
          let out := accountGetAux nows provider f (some (c.inc (nows k)).1)
            (k + 1) (some (nextPage p))
          ⟨match out.res with
            | .error e => .error e
            | .ok rest => .ok (r.content ++ rest),
           out.pFinal, p :: out.reqs, out.cntFinal⟩
        else ⟨.ok r.content, p, [p], some (c.inc (nows k)).1⟩

/-- `Account.post`: guard on `self.counter`, `counter.inc()`, issue
the request, then `res, info = self.ans_check(ans)`.  `ans_check`
returns a dictionary (or `None`), so the tuple unpacking iterates
its keys: `None` raises `TypeError`; a 1-key dictionary (no
`result_info`) raises `ValueError`; a 2-key dictionary binds
`res = "content"` and `info = "info"`, and the returned value is
the string `"content"`.  The second component records whether the
physical request was issued, the third the final counter. -/
def accountPost (cnt : Option Counter) (now : Int) (env : Envelope α) :
    Except PyExn String × Bool × Option Counter :=
  match cnt with
  | none => (.error .attributeError, false, none)
  | some c =>
    match ans_check env with
    | .error e => (.error e, true, some (c.inc now).1)
    | .ok (none, _) => (.error .typeError, true, some (c.inc now).1)
    | .ok (some r, _) =>
      match r.info with
      | none => (.error .valueError, true, some (c.inc now).1)
      | some _ => (.ok "content", true, some (c.inc now).1)

/-- `Account.put`: textually the same body as `Account.post` (the
source duplicates it, differing only in the HTTP verb). -/
def accountPut (cnt : Option Counter) (now : Int) (env : Envelope α) :
    Except PyExn String × Bool × Option Counter :=
  match cnt with
  | none => (.error .attributeError, false, none)
  | some c =>
    match ans_check env with
    | .error e => (.error e, true, some (c.inc now).1)
    | .ok (none, _) => (.error .typeError, true, some (c.inc now).1)
    | .ok (some r, _) =>
      match r.info with
      | none => (.error .valueError, true, some (c.inc now).1)
      | some _ => (.ok "content", true, some (c.inc now).1)

/-- A well-behaved paginating provider: on a request for page `j`
(the `page` parameter, absent meaning 1) it returns a successful
envelope whose content is `pages j` and whose `result_info` reports
`page = j`, `total_pages = N`. -/
def mkProvider (pages : Nat → List β) (N : Nat) :
    Option Nat → Envelope (List β) :=
  fun p =>
    { success := true
      result := pages (reqPage p)
      errors := []
      result_info := some ⟨reqPage p, N⟩ }

/-- A counter in its initial state for the default constructor
arguments (`period = 300`, `maxhits = int(1200.0 / 1)`). -/
def cA : Counter := ⟨300, 1200, []⟩

/-- Three pages of sizes 2, 2, 1: the mock of the spec's
pagination test. -/
def pages221 : Nat → List Nat :=
  fun j => if j = 1 then [0, 1] else if j = 2 then [2, 3] else [4]

/-- Constant clock for runs where timing is irrelevant. -/
def nows0 : Nat → Int := fun _ => 0

/-- Two successive `get` calls that both omit the query-parameter
argument, as the interpreter executes them: the one default
dictionary is created once, so the second call starts from the
`page` entry (`pFinal`) and counter state left by the first. -/
def twoDefaultGets : GetOut Nat × GetOut Nat :=
  let first := accountGetAux nows0 (mkProvider pages221 3) 3 (some cA) 0 none
  let second := accountGetAux nows0 (mkProvider pages221 3) 3 first.cntFinal 3 first.pFinal
  (first, second)

/-! Helper lemmas about `lastD` and the pruning loop. -/

theorem lastD_concat (l : List Int) (x : Int) : lastD (l ++ [x]) = x := by
  simp [lastD]

theorem lastD_cons_of_ne_nil (x : Int) {rest : List Int} (h : rest ≠ []) :
    lastD (x :: rest) = lastD rest := by
  obtain ⟨y, ys, rfl⟩ := List.exists_cons_of_ne_nil h
  simp [lastD, List.getLastD_cons]

theorem pruneFront_suffix (d : Int) :
    ∀ l : List Int, List.IsSuffix (pruneFront d l) l
  | [] => by simp [pruneFront]
  | x :: rest => by
    rw [pruneFront]
    split
    · exact (pruneFront_suffix d rest).trans (List.suffix_cons x rest)
    · exact List.suffix_refl _

theorem pruneFront_ne_nil (d : Int) (hd : 0 ≤ d) :
    ∀ l : List Int, l ≠ [] → pruneFront d l ≠ []
  | x :: rest, _ => by
    rw [pruneFront]
    split
    · rename_i hcond
      cases rest with
      | nil => simp [lastD] at hcond; omega
      | cons y ys => exact pruneFront_ne_nil d hd (y :: ys) (by simp)
    · simp

theorem pruneFront_lastD (d : Int) (hd : 0 ≤ d) :
    ∀ l : List Int, l ≠ [] → lastD (pruneFront d l) = lastD l
  | x :: rest, _ => by
    rw [pruneFront]
    split
    · rename_i hcond
      cases rest with
      | nil => simp [lastD] at hcond; omega
      | cons y ys =>
        rw [pruneFront_lastD d hd (y :: ys) (by simp)]
        exact (lastD_cons_of_ne_nil x (by simp)).symm
    · rfl

theorem pruneFront_span (d : Int) (hd : 0 ≤ d) :
    ∀ l : List Int, l.Pairwise (· ≤ ·) → ∀ t ∈ pruneFront d l, lastD l - t ≤ d
  | [], _, t, ht => by simp [pruneFront] at ht
  | x :: rest, hp, t, ht => by
    rw [pruneFront] at ht
    split at ht
    · rename_i hcond
      cases rest with
      | nil => simp [lastD] at hcond; omega
      | cons y ys =>
        rw [lastD_cons_of_ne_nil x (by simp)]
        exact pruneFront_span d hd (y :: ys) (List.Pairwise.of_cons hp) t ht
    · rename_i hcond
      push_neg at hcond
      rcases List.mem_cons.mp ht with rfl | htr
      · omega
      · have hx : x ≤ t := (List.pairwise_cons.mp hp).1 t htr
        omega

/-- Claim C1 (code bug): the quota invariant fails on the code.
With `max_calls = 2` and `window_seconds = 10`, five back-to-back
calls to `Counter.inc` starting at t = 0 leave
`call_history = [0, 0, 10, 10, 10]` after pruning: the sliding
window `[0, 10]` contains five recorded timestamps, more than
`max_calls`, and the whole sequence completes by t = 10 (calls 3,
4 and 5 are admitted with zero delay, because the strict `>` prune
retains the timestamp exactly `window_seconds` old, which pins the
span to the window length and makes the computed delay zero). -/
theorem c1_quota_violation :
    (runBB ⟨10, 2, []⟩ 0 5).1.hist = [0, 0, 10, 10, 10] ∧
    2 < countInWindow 10 0 (runBB ⟨10, 2, []⟩ 0 5).1.hist ∧
    (runBB ⟨10, 2, []⟩ 0 5).2 = 10 := by
  decide

/-- Claim C3: whenever the count retained after pruning is at least
`maxhits`, `Counter.inc` sleeps exactly
`period - (newest - oldest)` where newest and oldest are the last
and first entries of the pruned history. -/
theorem c3_delay_formula (c : Counter) (now : Int)
    (h : c.maxhits ≤ (c.inc now).1.hist.length) :
    (c.inc now).2 =
      c.period - (lastD (c.inc now).1.hist - (c.inc now).1.hist.headD 0) := by
  simp only [Counter.inc] at h ⊢
  rw [if_pos h]

/-- Witness for C3, the spec's concrete scenario: `max_calls = 2`,
`window_seconds = 10`, timestamps 0 and 1 recorded; the third call
at t = 2 retains `[0, 1, 2]` (count 3 ≥ 2) and sleeps
`10 - (2 - 0) = 8`, returning at t = 10. -/
theorem c3_delay_formula_witness :
    2 ≤ ((⟨10, 2, [0, 1]⟩ : Counter).inc 2).1.hist.length ∧
    ((⟨10, 2, [0, 1]⟩ : Counter).inc 2).2 = 8 ∧
    (2 : Int) + ((⟨10, 2, [0, 1]⟩ : Counter).inc 2).2 = 10 :=
  ⟨by decide,
   (c3_delay_formula ⟨10, 2, [0, 1]⟩ 2 (by decide)).trans (by decide),
   by decide⟩

/-- Claim C4: provided the window length is nonnegative and the
recorded timestamps are in nondecreasing order and not later than
the current time (what `datetime.now()` produces), every call to
`Counter.inc` re-establishes the invariant: after the front-pruning
loop the history is still sorted, its most recent entry is `now`,
and every retained timestamp lies within `period` of it. -/
theorem c4_prune_span_invariant (c : Counter) (now : Int)
    (hp : 0 ≤ c.period) (hs : c.hist.Pairwise (· ≤ ·))
    (hb : ∀ t ∈ c.hist, t ≤ now) :
    (c.inc now).1.hist.Pairwise (· ≤ ·) ∧
    lastD (c.inc now).1.hist = now ∧
    ∀ t ∈ (c.inc now).1.hist, now - t ≤ c.period ∧ t ≤ now := by
  have h1 : (c.inc now).1.hist = pruneFront c.period (c.hist ++ [now]) := rfl
  have hsort : (c.hist ++ [now]).Pairwise (· ≤ ·) := by
    rw [List.pairwise_append]
    refine ⟨hs, List.pairwise_singleton _ _, ?_⟩
    intro a ha b hbm
    simp only [List.mem_singleton] at hbm
    subst hbm
    exact hb a ha
  refine ⟨?_, ?_, ?_⟩
  · rw [h1]
    exact hsort.sublist (pruneFront_suffix _ _).sublist
  · rw [h1, pruneFront_lastD c.period hp _ (by simp), lastD_concat]
  · intro t ht
    rw [h1] at ht
    have hspan := pruneFront_span c.period hp _ hsort t ht
    rw [lastD_concat] at hspan
    have hmem : t ∈ c.hist ++ [now] :=
      (pruneFront_suffix _ _).sublist.subset ht
    have hle : t ≤ now := by
      rcases List.mem_append.mp hmem with hm | hm
      · exact hb t hm
      · simp only [List.mem_singleton] at hm
        omega
    exact ⟨hspan, hle⟩

/-- Witness for C4 at the state `hist = [0, 1]`, `now = 2`,
`period = 10`: the pruned history `[0, 1, 2]` is sorted, ends at 2,
and every entry is within 10 of it. -/
theorem c4_prune_span_invariant_witness :
    (0 : Int) ≤ 10 ∧
    ((⟨10, 2, [0, 1]⟩ : Counter).inc 2).1.hist.Pairwise (· ≤ ·) ∧
    lastD ((⟨10, 2, [0, 1]⟩ : Counter).inc 2).1.hist = 2 ∧
    ∀ t ∈ ((⟨10, 2, [0, 1]⟩ : Counter).inc 2).1.hist,
      (2 : Int) - t ≤ 10 ∧ t ≤ 2 :=
  ⟨by decide,
   c4_prune_span_invariant ⟨10, 2, [0, 1]⟩ 2 (by decide) (by decide)
     (by decide)⟩

/-- Unfolding lemma: the well-behaved provider always yields a
successful envelope, so `ans_check` returns its content and
pagination block unchanged. -/
theorem ans_check_mkProvider (pages : Nat → List β) (N : Nat) (p : Option Nat) :
    ans_check (mkProvider pages N p) =
      .ok (some ⟨pages (reqPage p), some ⟨reqPage p, N⟩⟩, []) := rfl

/-- Pagination loop invariant: starting from an explicit `page = j`
parameter with `1 ≤ j ≤ N` and enough fuel, `Account.get` against
the well-behaved `N`-page provider returns the concatenation of
pages `j..N` in order, requests exactly pages `j..N`, and leaves
the shared parameter dictionary at `page = N`. -/
theorem getAux_pages (pages : Nat → List β) (N : Nat) :
    ∀ fuel j k : Nat, ∀ c : Counter, ∀ nows : Nat → Int,
      1 ≤ j → j ≤ N → N - j ≤ fuel →
      (accountGetAux nows (mkProvider pages N) fuel (some c) k (some j)).res
          = .ok ((List.range' j (N + 1 - j)).flatMap pages) ∧
      (accountGetAux nows (mkProvider pages N) fuel (some c) k (some j)).reqs
          = (List.range' j (N + 1 - j)).map some ∧
      (accountGetAux nows (mkProvider pages N) fuel (some c) k (some j)).pFinal
          = some N := by
  intro fuel
  induction fuel with
  | zero =>
    intro j k c nows h1 h2 h3
    have hne : ¬ j < N := by omega
    have hN1 : N + 1 - j = 1 := by omega
    simp [accountGetAux, ans_check, ans_check_try, mkProvider, reqPage, hne,
      hN1]
    omega
  | succ f ih =>
    intro j k c nows h1 h2 h3
    by_cases hlt : j < N
    · have hN1 : N + 1 - j = (N - j) + 1 := by omega
      have hN2 : N + 1 - (j + 1) = N - j := by omega
      obtain ⟨ihr, ihq, ihp⟩ :=
        ih (j + 1) (k + 1) ((c.inc (nows k)).1) nows (by omega) (by omega)
          (by omega)
      rw [hN2] at ihr ihq
      simp only [accountGetAux, ans_check, ans_check_try, mkProvider, reqPage,
        nextPage, Option.getD_some, hlt, if_true]
      rw [hN1, List.range'_succ]
      refine ⟨?_, ?_, ?_⟩
      · rw [ihr]
        simp [mkProvider, reqPage]
      · rw [ihq]
        simp
      · rw [ihp]
    · have hne : ¬ j < N := by omega
      have hN1 : N + 1 - j = 1 := by omega
      simp [accountGetAux, ans_check, ans_check_try, mkProvider, reqPage, hne,
        hN1]
      omega

/-- Claim C2: against a well-behaved provider with `N ≥ 2` pages
(each response reporting `page = requested page` and
`total_pages = N`), `Account.get` called with the `page` parameter
absent issues the first request without a `page` parameter, then
follow-ups with `page = 2, 3, ..., N` (set to 2 when absent, then
incremented), appends each follow-up's content, and returns the
concatenation of all pages' result lists in page order. -/
theorem c2_pagination_concat (pages : Nat → List β) (N fuel k : Nat)
    (c : Counter) (nows : Nat → Int) (hN : 2 ≤ N) (hfuel : N ≤ fuel) :
    (accountGetAux nows (mkProvider pages N) fuel (some c) k none).res
        = .ok ((List.range' 1 N).flatMap pages) ∧
    (accountGetAux nows (mkProvider pages N) fuel (some c) k none).reqs
        = none :: (List.range' 2 (N - 1)).map some ∧
    (accountGetAux nows (mkProvider pages N) fuel (some c) k none).pFinal
        = some N := by
  obtain ⟨f, rfl⟩ : ∃ f, fuel = f + 1 := ⟨fuel - 1, by omega⟩
  have h1N : 1 < N := by omega
  have hN2 : N + 1 - 2 = N - 1 := by omega
  obtain ⟨ihr, ihq, ihp⟩ :=
    getAux_pages pages N f 2 (k + 1) ((c.inc (nows k)).1) nows (by omega)
      (by omega) (by omega)
  rw [hN2] at ihr ihq
  simp only [accountGetAux, ans_check, ans_check_try, mkProvider, reqPage,
    nextPage, Option.getD_none, h1N, if_true]
  refine ⟨?_, ?_, ?_⟩
  · rw [ihr]
    conv_rhs => rw [show N = (N - 1) + 1 from by omega, List.range'_succ]
    simp
  · rw [ihq]
  · rw [ihp]

/-- Witness for C2: the spec's mock of 3 pages with result counts
2, 2 and 1 (`total_pages = 3`) yields the 5-element sequence
`[0, 1, 2, 3, 4]`, in page order with no duplicates or omissions,
via requests with `page` absent, then 2, then 3. -/
theorem c2_pagination_concat_witness :
    2 ≤ 3 ∧ (3 : Nat) ≤ 3 ∧
    (accountGetAux nows0 (mkProvider pages221 3) 3 (some cA) 0 none).res
        = .ok [0, 1, 2, 3, 4] ∧
    (accountGetAux nows0 (mkProvider pages221 3) 3 (some cA) 0 none).reqs
        = [none, some 2, some 3] :=
  ⟨by decide, by decide,
   by
    have h := c2_pagination_concat pages221 3 3 0 cA nows0 (by decide)
      (by decide)
    exact ⟨h.1.trans (by rfl), h.2.1.trans (by rfl)⟩⟩

/-- Claim C5 (code bug): `post` and `put` do not return the
unwrapped `result` field.  `ans_check` returns a dictionary, and
`res, info = self.ans_check(ans)` unpacks its keys: on a successful
envelope without `result_info` the 1-key dictionary raises
`ValueError`, and with `result_info` present the call returns the
literal key string `"content"` instead of the `result` payload
(`"payload"` here). -/
theorem c5_post_put_unpack_bug :
    (accountPost (some cA) 0 (⟨true, "payload", [], none⟩ : Envelope String)).1
        = .error .valueError ∧
    (accountPost (some cA) 0
        (⟨true, "payload", [], some ⟨1, 1⟩⟩ : Envelope String)).1
        = .ok "content" ∧
    (accountPut (some cA) 0 (⟨true, "payload", [], none⟩ : Envelope String)).1
        = .error .valueError ∧
    (accountPut (some cA) 0
        (⟨true, "payload", [], some ⟨1, 1⟩⟩ : Envelope String)).1
        = .ok "content" ∧
    "content" ≠ "payload" :=
  ⟨rfl, rfl, rfl, rfl, by decide⟩

/-- Claim C6 counterexample: on the envelope
`success = false, errors = [(1003, "Invalid zone")]`, neither
`get` nor `post` nor `put` yields the typed `APIError`: each fails
with the untyped `TypeError` instead (the `APIError` was swallowed
inside `ans_check`), so the claim that they yield
`APIError(1003, "Invalid zone")` is false at this input. -/
theorem c6_counterexample :
    (accountGetAux nows0
        (fun _ =>
          (⟨false, [], [(1003, "Invalid zone")], none⟩ : Envelope (List Nat)))
        1 (some cA) 0 none).res = .error .typeError ∧
    (accountPost (some cA) 0
        (⟨false, 0, [(1003, "Invalid zone")], none⟩ : Envelope Nat)).1
        = .error .typeError ∧
    (accountPut (some cA) 0
        (⟨false, 0, [(1003, "Invalid zone")], none⟩ : Envelope Nat)).1
        = .error .typeError ∧
    PyExn.typeError ≠ PyExn.apiError 1003 "Invalid zone" :=
  ⟨rfl, rfl, rfl, by decide⟩

/-- Claim C6 amended: for every envelope with `success = false` and
a non-empty `errors` array, the unwrap operation shared by `get`,
`post` and `put` raises an `APIError` whose code and message are
taken verbatim from the first element of `errors`, but catches it
itself and only prints it, so the typed error never reaches the
callers. -/
theorem c6_amended_error_normalization {γ : Type} (env : Envelope γ)
    (c : Int) (m : String) (rest : List (Int × String))
    (h1 : env.success = false) (h2 : env.errors = (c, m) :: rest) :
    ans_check_try env = .error (.apiError c m) ∧
    ans_check env = .ok (none, [apiErrStr c m]) := by
  have ht : ans_check_try env = .error (.apiError c m) := by
    simp [ans_check_try, h1, h2]
  exact ⟨ht, by simp [ans_check, ht]⟩

/-- Witness for the amended C6 at the spec's example envelope
`{"success": false, "errors": [{"code": 1003, "message": "Invalid
zone"}]}`. -/
theorem c6_amended_error_normalization_witness :
    (⟨false, 0, [(1003, "Invalid zone")], none⟩ : Envelope Nat).success
        = false ∧
    ans_check_try (⟨false, 0, [(1003, "Invalid zone")], none⟩ : Envelope Nat)
        = .error (.apiError 1003 "Invalid zone") ∧
    ans_check (⟨false, 0, [(1003, "Invalid zone")], none⟩ : Envelope Nat)
        = .ok (none, [apiErrStr 1003 "Invalid zone"]) :=
  ⟨rfl,
   c6_amended_error_normalization _ 1003 "Invalid zone" [] rfl rfl⟩

/-- Claim C7: the `APIError` raised for a `success = false`
envelope is caught inside `ans_check` itself, which only prints it
and returns normally (Python's implicit `None`); the typed error
never propagates to the caller of `ans_check`. -/
theorem c7_apierror_swallowed {γ : Type} (env : Envelope γ) (c : Int)
    (m : String) (rest : List (Int × String)) (h1 : env.success = false)
    (h2 : env.errors = (c, m) :: rest) :
    ans_check env = .ok (none, [apiErrStr c m]) := by
  simp [ans_check, ans_check_try, h1, h2]

/-- Witness for C7 at the `1003, Invalid zone` envelope. -/
theorem c7_apierror_swallowed_witness :
    (⟨false, 0, [(1003, "Invalid zone")], none⟩ : Envelope Nat).success
        = false ∧
    ans_check (⟨false, 0, [(1003, "Invalid zone")], none⟩ : Envelope Nat)
        = .ok (none, [apiErrStr 1003 "Invalid zone"]) :=
  ⟨rfl, c7_apierror_swallowed _ 1003 "Invalid zone" [] rfl rfl⟩

/-- Claim C9: for every `success = false` envelope (with the
envelope's `errors` array non-empty, as the provider contract
prescribes), `get` neither returns normally nor raises `APIError`:
`ans_check` swallows the `APIError` and returns `None`, and
`res["content"]` then raises `TypeError` — an untyped failure that
carries neither the provider code nor the message (the `typeError`
value has no fields). -/
theorem c9_get_crashes_untyped {β : Type} (env : Envelope (List β))
    (c : Int) (m : String) (rest : List (Int × String))
    (h1 : env.success = false) (h2 : env.errors = (c, m) :: rest)
    (cnt : Counter) (nows : Nat → Int) (fuel k : Nat) (p : Option Nat) :
    (accountGetAux nows (fun _ => env) fuel (some cnt) k p).res
        = .error .typeError := by
  cases fuel with
  | zero => simp [accountGetAux, ans_check, ans_check_try, h1, h2]
  | succ f => simp [accountGetAux, ans_check, ans_check_try, h1, h2]

/-- Witness for C9 at the `1003, Invalid zone` envelope. -/
theorem c9_get_crashes_untyped_witness :
    (⟨false, ([] : List Nat), [(1003, "Invalid zone")], none⟩ :
        Envelope (List Nat)).success = false ∧
    (accountGetAux nows0
        (fun _ =>
          (⟨false, ([] : List Nat), [(1003, "Invalid zone")], none⟩ :
            Envelope (List Nat)))
        2 (some cA) 0 none).res = .error .typeError :=
  ⟨rfl,
   c9_get_crashes_untyped _ 1003 "Invalid zone" [] rfl rfl cA nows0 2 0 none⟩

/-- Claim C8: the shared mutable default query-parameter dictionary
leaks state across calls.  Two successive `get` calls that both
omit the parameter share one dictionary: the first (a 3-page
paginated query) returns all 5 items but leaves `page = 3` in the
dictionary; the second, logically independent call then issues its
single request with the leftover `page = 3` parameter instead of
starting from page 1, and returns only page 3's single item. -/
theorem c8_default_dict_leak :
    twoDefaultGets.1.res = .ok [0, 1, 2, 3, 4] ∧
    twoDefaultGets.1.pFinal = some 3 ∧
    twoDefaultGets.2.reqs = [some 3] ∧
    twoDefaultGets.2.res = .ok [4] :=
  ⟨rfl, rfl, rfl, rfl⟩

/-- Claim C10: for an `Account` constructed with `count = False`
the `counter` attribute is never bound, and `get`, `post` and `put`
all read it unconditionally in their admission guard, so each of
them fails with `AttributeError` before any HTTP request is issued
(the request log of `get` is empty and the issued flag of
`post`/`put` is false), for every provider, clock, fuel, parameter
and body. -/
theorem c10_attribute_error {β γ : Type} (nows : Nat → Int)
    (provider : Option Nat → Envelope (List β)) (fuel k : Nat)
    (p : Option Nat) (n : Nat) (now : Int) (env : Envelope γ) :
    accountGetAux nows provider fuel ((Account.init false n).counter) k p
        = ⟨.error .attributeError, p, [], none⟩ ∧
    accountPost ((Account.init false n).counter) now env
        = (.error .attributeError, false, none) ∧
    accountPut ((Account.init false n).counter) now env
        = (.error .attributeError, false, none) := by
  have hc : (Account.init false n).counter = none := rfl
  rw [hc]
  refine ⟨?_, rfl, rfl⟩
  cases fuel <;> rfl
